import Mathlib

/-!
# Feather admin sidecar (`tools/feather-ctl.py`): shallow embedding

This file embeds the build-promotion controller of the feather repository:
the artifact store (`list_builds`), the health prober (`get_health`), the
promotion workflow (`promote_version`) and the HTTP handlers for
`GET /admin/api/status` and `DELETE /admin/api/builds/{version}`.

Python I/O is made explicit:
* the filesystem state is an `FS` record (the `*.bin` files of
  `BUILDS_DIR`, the contents of the `active` pointer file, and the binary
  staged at `FEATHER_BIN`);
* the one network call (`urllib.request.urlopen` on the health URL,
  followed by `json.loads`) is an `HttpOutcome` value supplied by the
  environment; the poll loop of `promote_version` receives one outcome
  per attempt;
* `json.loads` results are `Json` values, where `Json.null` doubles as
  the Python `None` object (as it does in CPython, where
  `json.loads "null"` *is* `None`).
-/

namespace Feather

/-- JSON values, as produced by `json.loads`.  `Json.null` represents the
Python object `None`, which is also what `get_health` returns on failure. -/
inductive Json where
  | null
  | bool (b : Bool)
  | num (n : Int)
  | str (s : String)
  | arr (elems : List Json)
  | obj (fields : List (String × Json))

/-- `x is None` for a `json.loads` value / probe result: only the Python
`None` object satisfies it. -/
def Json.isNull : Json → Bool
  | .null => true
  | _ => false

/-- Python truthiness (`bool(x)`) of a `json.loads` value: `None` and
`False` are falsy, numbers are truthy iff nonzero, strings/arrays/objects
are truthy iff non-empty. -/
def Json.truthy : Json → Bool
  | .null => false
  | .bool b => b
  | .num n => n != 0
  | .str s => s != ""
  | .arr elems => !elems.isEmpty
  | .obj fields => !fields.isEmpty

/-- `dict.get key default` on a parsed JSON object. -/
def Json.getD (fields : List (String × Json)) (key : String) (d : Json) : Json :=
  match fields.find? (fun kv => kv.1 == key) with
  | some kv => kv.2
  | none => d

/-- What a single `urllib.request.urlopen(HEALTH_URL, timeout=3)` +
`json.loads(r.read())` can come to.  `response parsed` is an HTTP success
whose body parsed to `some j`, or failed to parse (`none`, a
`json.JSONDecodeError`).  Non-2xx statuses raise `HTTPError` inside
`urlopen`, transport failures raise `URLError`, and the socket timeout
raises as well; all of these are `Exception`s. -/
inductive HttpOutcome where
  | transportError
  | timeout
  | badStatus (code : Nat)
  | response (parsed : Option Json)

/-- `get_health()`: fetch the feather `/health` endpoint, return the parsed
dict or `None`.  Every raised `Exception` is caught and collapsed to `None`
(`Json.null` here). -/
def get_health : HttpOutcome → Json
  | .transportError => .null
  | .timeout => .null
  | .badStatus _ => .null
  | .response none => .null
  | .response (some j) => j

/-- Python `str.strip()` (no argument): remove leading and trailing
whitespace.  Implemented on the character list so that it evaluates by
kernel reduction. -/
def pyStrip (s : String) : String :=
  ⟨((s.data.dropWhile Char.isWhitespace).reverse.dropWhile Char.isWhitespace).reverse⟩

/-- Python string comparison `a <= b`: lexicographic on code points.
Implemented as a Bool-valued structural recursion so that it evaluates by
kernel reduction; `lexLeB_iff_le` below identifies it with the
lexicographic order on character lists. -/
def lexLeB : List Char → List Char → Bool
  | [], _ => true
  | _ :: _, [] => false
  | a :: as, b :: bs =>
    if a < b then true
    else if b < a then false
    else lexLeB as bs

/-- One `*.bin` file of `BUILDS_DIR`: its `Path.stem` (the version), its
`st_size` and its `int(st_mtime)`.  Files in one directory have distinct
names, hence distinct versions; theorems that need this take a
`Nodup` hypothesis on the versions. -/
structure BuildFile where
  version : String
  size : Nat
  mtime : Nat
  deriving DecidableEq

/-- The filesystem state the sidecar reads and writes:
* `builds`: the `*.bin` files of `BUILDS_DIR` (a missing directory is the
  same as an empty one for every observable operation);
* `activeFile`: the raw contents of `ACTIVE_FILE`, `none` when the file
  does not exist;
* `featherBin`: which version's bytes are staged at `FEATHER_BIN`,
  `none` when nothing has been copied there. -/
structure FS where
  builds : List BuildFile
  activeFile : Option String
  featherBin : Option String
  deriving DecidableEq

/-- `ACTIVE_FILE.read_text().strip() if ACTIVE_FILE.exists() else ""` —
the reading used by `list_builds` and the DELETE handler. -/
def FS.readActive (fs : FS) : String :=
  match fs.activeFile with
  | some s => pyStrip s
  | none => ""

/-- `(BUILDS_DIR / version + ".bin").exists()`. -/
def FS.hasBuild (fs : FS) (version : String) : Bool :=
  fs.builds.any (fun b => b.version == version)

/-- One entry of the list returned by `list_builds`. -/
structure Build where
  version : String
  size : Nat
  timestamp : Nat
  active : Bool
  deriving DecidableEq

/-- The sort order of `sorted(..., key=lambda f: f.stem, reverse=True)`:
version strings descending (lexicographic on code points, as in Python). -/
def buildDesc (a b : BuildFile) : Prop :=
  lexLeB b.version.data a.version.data = true

instance : DecidableRel buildDesc := fun a b =>
  inferInstanceAs (Decidable (lexLeB b.version.data a.version.data = true))

/-- `list_builds()`: the `*.bin` files sorted by stem descending, each
reported with its version, size, timestamp and an `active` flag comparing
the stem to the active-pointer value. -/
def list_builds (fs : FS) : List Build :=
  let active := fs.readActive
  (List.insertionSort buildDesc fs.builds).map fun p =>
    { version := p.version, size := p.size, timestamp := p.mtime,
      active := p.version == active }

/-- `promote_version(version)`: if `BUILDS_DIR/version.bin` is missing,
fail with a not-found message and touch nothing.  Otherwise copy the build
to `FEATHER_BIN`, chmod it, write `version` to `ACTIVE_FILE`, restart the
service (fire-and-forget), then poll `get_health()` once per second for up
to 15 attempts; the loop body takes the branch iff the parsed body is
truthy.  Returns the new filesystem state and the `(ok, message)` pair.
`health i` is the outcome of the probe on attempt `i`. -/
def promote_version (fs : FS) (version : String) (health : Nat → HttpOutcome) :
    FS × Bool × String :=
  if !fs.hasBuild version then
    (fs, false, "Build " ++ version ++ " not found")
  else
    let fs1 : FS := { fs with featherBin := some version, activeFile := some version }
    if (List.range 15).any (fun i => (get_health (health i)).truthy) then
      (fs1, true, "OK")
    else
      (fs1, true, "Restarted but health check not yet passing")

/-- The body of `GET /admin/api/status`.  `active_version` defaults to
`"unknown"` when `ACTIVE_FILE` is missing; `healthy` is `health is not
None`; `uptime_secs` is `health.get("uptime_secs", 0) if health else 0`. -/
structure StatusResp where
  active_version : String
  healthy : Bool
  uptime_secs : Json
  build_count : Nat

/-- `health.get("uptime_secs", 0) if health else 0`.  A truthy `health`
that is not a dict has no `.get` and would raise an uncaught
`AttributeError` (`none` here); this cannot come from a JSON object body. -/
def uptimeField (health : Json) : Option Json :=
  if health.truthy then
    match health with
    | .obj fields => some (Json.getD fields "uptime_secs" (.num 0))
    | _ => none
  else
    some (.num 0)

/-- The `GET /admin/api/status` handler, given the filesystem state and the
result of its `get_health()` call.  `none` models the uncaught exception of
a truthy non-dict health value; every JSON-object or unreachable probe
yields `some` response with HTTP 200. -/
def do_GET_status (fs : FS) (health : Json) : Option StatusResp :=
  (uptimeField health).map fun u =>
    { active_version := match fs.activeFile with
        | some s => pyStrip s
        | none => "unknown"
      healthy := !health.isNull
      uptime_secs := u
      build_count := (list_builds fs).length }

/-- The `DELETE /admin/api/builds/{version}` handler, given the version
extracted from the path.  Returns the new filesystem state, the HTTP status
code and the JSON body.  Checks, in order: non-empty version (400),
active-build conflict (409), existence (404); then unlinks the file (200).
Unlinking `version + ".bin"` removes exactly the entries with that stem. -/
def do_DELETE (fs : FS) (version : String) : FS × Nat × Json :=
  if version == "" then
    (fs, 400, .obj [("error", .str "version required")])
  else if version == fs.readActive then
    (fs, 409, .obj [("error", .str "Cannot delete the active build")])
  else if !fs.hasBuild version then
    (fs, 404, .obj [("error", .str ("Build " ++ version ++ " not found"))])
  else
    ({ fs with builds := fs.builds.filter (fun b => b.version != version) },
     200, .obj [("ok", .bool true), ("deleted", .str version)])

/-! ## Helper lemmas -/

theorem list_builds_length (fs : FS) : (list_builds fs).length = fs.builds.length := by
  unfold list_builds
  rw [List.length_map]
  exact (List.perm_insertionSort buildDesc fs.builds).length_eq

/-- The executable comparator `lexLeB` is the lexicographic order on
character lists. -/
theorem lexLeB_iff_le : ∀ as bs : List Char, lexLeB as bs = true ↔ as ≤ bs
  | [], bs => by simp [lexLeB]
  | a :: as, [] => by
    simp only [lexLeB]
    exact iff_of_false (by decide) (not_le.2 (List.nil_lt_cons a as))
  | a :: as, b :: bs => by
    simp only [lexLeB]
    rcases lt_trichotomy a b with hab | rfl | hba
    · rw [if_pos hab]
      exact iff_of_true rfl (le_of_lt (show (a :: as) < (b :: bs) from List.Lex.rel hab))
    · rw [if_neg (lt_irrefl a), if_neg (lt_irrefl a)]
      refine (lexLeB_iff_le as bs).trans ?_
      constructor
      · exact fun h => List.cons_le_cons a h
      · intro h
        exact not_lt.1 fun hlt => not_lt.2 h (List.Lex.cons hlt)
    · rw [if_neg (asymm hba), if_pos hba]
      exact iff_of_false (by decide)
        (not_le.2 (show (b :: bs) < (a :: as) from List.Lex.rel hba))

/-- `list_builds` output is sorted by version descending. -/
theorem list_builds_sorted (fs : FS) :
    List.Pairwise (fun a b : Build => b.version ≤ a.version) (list_builds fs) := by
  haveI : IsTotal BuildFile buildDesc :=
    ⟨fun a b => by
      unfold buildDesc
      rw [lexLeB_iff_le, lexLeB_iff_le]
      exact le_total _ _⟩
  haveI : IsTrans BuildFile buildDesc :=
    ⟨fun a b c hab hbc => by
      unfold buildDesc at hab hbc ⊢
      rw [lexLeB_iff_le] at hab hbc ⊢
      exact le_trans hbc hab⟩
  unfold list_builds
  rw [List.pairwise_map]
  refine (List.sorted_insertionSort buildDesc fs.builds).imp ?_
  intro p q h
  exact String.le_iff_toList_le.2 ((lexLeB_iff_le _ _).1 h)

/-- In a list of build files with pairwise-distinct versions, at most one
matches any given version string. -/
theorem countP_version_le_one (a : String) :
    ∀ l : List BuildFile, (l.map BuildFile.version).Nodup →
      List.countP (fun p => p.version == a) l ≤ 1
  | [], _ => by simp
  | p :: l, h => by
    rw [List.map_cons, List.nodup_cons] at h
    obtain ⟨h1, h2⟩ := h
    by_cases hpa : (p.version == a) = true
    · rw [List.countP_cons_of_pos (fun q => q.version == a) l hpa]
      have h0 : List.countP (fun q => q.version == a) l = 0 := by
        rw [List.countP_eq_zero]
        intro q hq hqa
        rw [beq_iff_eq] at hpa hqa
        rw [hpa] at h1
        have : q.version ∈ l.map BuildFile.version := List.mem_map_of_mem _ hq
        rw [hqa] at this
        exact h1 this
      omega
    · rw [List.countP_cons_of_neg (fun q => q.version == a) l hpa]
      exact countP_version_le_one a l h2

/-! ## Claims -/

/-- C1 (counterexample): with artifacts `2024-01-01`, `2024-02-01`, no
active-pointer file and an unreachable probe, `GET /status` reports
`active_version = "unknown"`, which is not the empty string the claim
demands. -/
theorem c1_counterexample :
    do_GET_status { builds := [⟨"2024-01-01", 7, 100⟩, ⟨"2024-02-01", 7, 100⟩],
                    activeFile := none, featherBin := none } Json.null =
      some { active_version := "unknown", healthy := false,
             uptime_secs := .num 0, build_count := 2 }
    ∧ ("unknown" : String) ≠ "" :=
  ⟨rfl, by decide⟩

/-- C1 (amended): for a store with artifacts, no Active Pointer file and an
unreachable health probe, `GET /status` returns `active_version "unknown"`
(the missing pointer is tolerated, not an error), `healthy false`, and
`build_count` equal to the number of artifacts. -/
theorem c1_status_missing_pointer (fs : FS) (hno : fs.activeFile = none) :
    do_GET_status fs Json.null =
      some { active_version := "unknown", healthy := false,
             uptime_secs := .num 0, build_count := fs.builds.length } := by
  simp [do_GET_status, uptimeField, Json.truthy, Json.isNull, hno, list_builds_length]

/-- C1 witness: the amended statement at the two-artifact store of the
spec's scenario. -/
theorem c1_status_missing_pointer_witness :
    do_GET_status { builds := [⟨"2024-01-01", 7, 100⟩, ⟨"2024-02-01", 7, 100⟩],
                    activeFile := none, featherBin := none } Json.null =
      some { active_version := "unknown", healthy := false,
             uptime_secs := .num 0, build_count := 2 } :=
  c1_status_missing_pointer _ rfl

/-- C3: `promote_version` reports `ok = false` exactly when the requested
build file is missing, and in that case the filesystem state is returned
untouched (no pointer write, no binary copy). -/
theorem c3_promote_failure_iff (fs : FS) (v : String) (health : Nat → HttpOutcome) :
    ((promote_version fs v health).2.1 = false ↔ fs.hasBuild v = false)
    ∧ (fs.hasBuild v = false → (promote_version fs v health).1 = fs) := by
  constructor
  · unfold promote_version
    cases h : fs.hasBuild v with
    | false => simp [h]
    | true =>
      simp [h]
      split <;> simp
  · intro h
    unfold promote_version
    simp [h]

/-- C3 witness: the failure branch at a concrete empty store. -/
theorem c3_promote_failure_iff_witness :
    ((promote_version { builds := [], activeFile := none, featherBin := none } "x"
        (fun _ => .transportError)).2.1 = false
      ↔ FS.hasBuild { builds := [], activeFile := none, featherBin := none } "x" = false)
    ∧ (FS.hasBuild { builds := [], activeFile := none, featherBin := none } "x" = false →
        (promote_version { builds := [], activeFile := none, featherBin := none } "x"
          (fun _ => .transportError)).1 =
          { builds := [], activeFile := none, featherBin := none }) :=
  c3_promote_failure_iff _ _ _

/-- C4: when the requested build exists, `promote_version` writes the
Active Pointer file to that version, whatever the health poll does. -/
theorem c4_promote_commits_pointer (fs : FS) (v : String) (health : Nat → HttpOutcome)
    (hex : fs.hasBuild v = true) :
    (promote_version fs v health).1.activeFile = some v := by
  unfold promote_version
  simp [hex]
  split <;> rfl

/-- C4 witness: a concrete promotion with a probe that never answers still
commits the pointer. -/
theorem c4_promote_commits_pointer_witness :
    (promote_version { builds := [⟨"v1", 1, 0⟩], activeFile := none, featherBin := none }
        "v1" (fun _ => .transportError)).1.activeFile = some "v1" :=
  c4_promote_commits_pointer _ _ _ rfl

/-- C2 (counterexample): `"v1"` exists and the very first poll attempt
returns a reachable, successfully parsed snapshot — the empty object —
yet `promote_version` does not return "OK": the loop tests truthiness of
the parsed body, and `{}` is falsy. -/
theorem c2_counterexample :
    (promote_version { builds := [⟨"v1", 1, 0⟩], activeFile := none, featherBin := none } "v1"
        (fun i => if i = 0 then .response (some (.obj [])) else .transportError)).2 =
      (true, "Restarted but health check not yet passing")
    ∧ get_health ((fun i : Nat =>
          if i = 0 then HttpOutcome.response (some (.obj [])) else .transportError) 0) =
        .obj [] :=
  ⟨rfl, rfl⟩

/-- C2 (amended): for an existing version, if no attempt within the
15-attempt bound yields a truthy parsed health body, `promote_version`
still returns `success true` with the degraded message; it returns
`success true` with "OK" as soon as some attempt within the bound yields a
truthy parsed body (a reachable snapshot whose body is falsy, such as the
empty object, is not counted). -/
theorem c2_promote_poll (fs : FS) (v : String) (health : Nat → HttpOutcome)
    (hex : fs.hasBuild v = true) :
    ((∀ i < 15, (get_health (health i)).truthy = false) →
      (promote_version fs v health).2 =
        (true, "Restarted but health check not yet passing"))
    ∧ ((∃ i < 15, (get_health (health i)).truthy = true) →
      (promote_version fs v health).2 = (true, "OK")) := by
  have hb : (!fs.hasBuild v) = false := by rw [hex]; rfl
  unfold promote_version
  rw [hb]
  rw [if_neg (by decide : ¬ (false = true))]
  constructor
  · intro h
    rw [if_neg]
    rw [List.any_eq_true]
    rintro ⟨i, hi, ht⟩
    rw [h i (List.mem_range.1 hi)] at ht
    exact absurd ht (by decide)
  · rintro ⟨i, hi, ht⟩
    rw [if_pos]
    rw [List.any_eq_true]
    exact ⟨i, List.mem_range.2 hi, ht⟩

/-- C2 witness: a probe that never answers at all gives the degraded
message. -/
theorem c2_promote_poll_witness :
    (promote_version { builds := [⟨"v1", 1, 0⟩], activeFile := none, featherBin := none } "v1"
        (fun _ => .transportError)).2 =
      (true, "Restarted but health check not yet passing") :=
  (c2_promote_poll _ _ _ (by decide)).1 (fun _ _ => rfl)

/-- C5: deleting the version the Active Pointer designates (a version is a
non-empty string) is refused with HTTP 409 and mutates nothing. -/
theorem c5_delete_active_conflict (fs : FS) (v : String) (h0 : v ≠ "")
    (hact : v = fs.readActive) :
    (do_DELETE fs v).1 = fs ∧ (do_DELETE fs v).2.1 = 409 := by
  have hcond : do_DELETE fs v =
      (fs, 409, Json.obj [("error", Json.str "Cannot delete the active build")]) := by
    unfold do_DELETE
    rw [if_neg (by simp [h0]), if_pos (by simp [hact])]
  rw [hcond]
  exact ⟨rfl, rfl⟩

/-- C5 witness: the active build of a concrete store cannot be deleted. -/
theorem c5_delete_active_conflict_witness :
    (do_DELETE { builds := [⟨"v1", 3, 9⟩], activeFile := some "v1", featherBin := some "v1" }
        "v1").1 =
      { builds := [⟨"v1", 3, 9⟩], activeFile := some "v1", featherBin := some "v1" }
    ∧ (do_DELETE { builds := [⟨"v1", 3, 9⟩], activeFile := some "v1", featherBin := some "v1" }
        "v1").2.1 = 409 :=
  c5_delete_active_conflict _ _ (by decide) (by decide)

/-- C6: `list_builds` returns the artifacts sorted by version descending;
given that versions are pairwise distinct (file names in one directory
are), at most one entry is flagged active, and an entry is flagged active
exactly when its version equals the Active Pointer value. -/
theorem c6_list_builds (fs : FS) (hnd : (fs.builds.map BuildFile.version).Nodup) :
    List.Pairwise (fun a b : Build => b.version ≤ a.version) (list_builds fs)
    ∧ ((list_builds fs).filter Build.active).length ≤ 1
    ∧ ∀ b ∈ list_builds fs, b.active = (b.version == fs.readActive) := by
  refine ⟨list_builds_sorted fs, ?_, ?_⟩
  · unfold list_builds
    rw [List.filter_map, List.length_map, ← List.countP_eq_length_filter]
    refine countP_version_le_one fs.readActive _ ?_
    exact ((List.perm_insertionSort buildDesc fs.builds).map BuildFile.version).nodup_iff.2 hnd
  · intro b hb
    unfold list_builds at hb
    rcases List.mem_map.1 hb with ⟨p, _, rfl⟩
    rfl

/-- C6 witness: the claim at a concrete two-artifact store with the newer
version active. -/
theorem c6_list_builds_witness :
    List.Pairwise (fun a b : Build => b.version ≤ a.version)
      (list_builds { builds := [⟨"2024-01-01", 4, 0⟩, ⟨"2024-02-01", 6, 5⟩],
                     activeFile := some "2024-02-01", featherBin := none })
    ∧ ((list_builds { builds := [⟨"2024-01-01", 4, 0⟩, ⟨"2024-02-01", 6, 5⟩],
                      activeFile := some "2024-02-01", featherBin := none }).filter
        Build.active).length ≤ 1
    ∧ ∀ b ∈ list_builds { builds := [⟨"2024-01-01", 4, 0⟩, ⟨"2024-02-01", 6, 5⟩],
                          activeFile := some "2024-02-01", featherBin := none },
        b.active = (b.version ==
          FS.readActive { builds := [⟨"2024-01-01", 4, 0⟩, ⟨"2024-02-01", 6, 5⟩],
                          activeFile := some "2024-02-01", featherBin := none }) :=
  c6_list_builds _ (by decide)

/-- C7: deleting an existing, non-active version succeeds with HTTP 200,
removes exactly the entries of that version from the store, and the
version no longer appears in a subsequent `list_builds`. -/
theorem c7_delete_removes (fs : FS) (v : String) (h0 : v ≠ "")
    (hne : v ≠ fs.readActive) (hex : fs.hasBuild v = true) :
    (do_DELETE fs v).2.1 = 200
    ∧ (do_DELETE fs v).1.builds = fs.builds.filter (fun b => b.version != v)
    ∧ v ∉ (list_builds (do_DELETE fs v).1).map Build.version := by
  have hfs : (do_DELETE fs v).1 =
      { fs with builds := fs.builds.filter (fun b => b.version != v) }
      ∧ (do_DELETE fs v).2.1 = 200 := by
    unfold do_DELETE
    simp [h0, hne, hex]
  refine ⟨hfs.2, by rw [hfs.1], ?_⟩
  rw [hfs.1]
  intro hmem
  simp only [list_builds, List.map_map, List.mem_map, Function.comp] at hmem
  obtain ⟨p, hp, hpv⟩ := hmem
  rw [(List.perm_insertionSort buildDesc _).mem_iff, List.mem_filter] at hp
  rw [bne_iff_ne] at hp
  exact hp.2 hpv

/-- C7 witness: deleting the non-active build of a concrete store. -/
theorem c7_delete_removes_witness :
    (do_DELETE { builds := [⟨"a", 1, 0⟩, ⟨"b", 1, 0⟩], activeFile := some "a",
                 featherBin := some "a" } "b").2.1 = 200
    ∧ (do_DELETE { builds := [⟨"a", 1, 0⟩, ⟨"b", 1, 0⟩], activeFile := some "a",
                   featherBin := some "a" } "b").1.builds =
        List.filter (fun b => b.version != "b") [⟨"a", 1, 0⟩, ⟨"b", 1, 0⟩]
    ∧ "b" ∉ (list_builds (do_DELETE
        { builds := [⟨"a", 1, 0⟩, ⟨"b", 1, 0⟩],
          activeFile := some "a", featherBin := some "a" } "b").1).map Build.version :=
  c7_delete_removes _ _ (by decide) (by decide) (by decide)

/-- C9: the conflict check runs before the existence check — deleting the
(non-empty) version the Active Pointer designates yields 409 and no
mutation even when no build file of that version exists (dangling
pointer), not 404. -/
theorem c9_conflict_precedes_existence (fs : FS) (v : String) (h0 : v ≠ "")
    (hact : v = fs.readActive) (hmiss : fs.hasBuild v = false) :
    (do_DELETE fs v).2.1 = 409
    ∧ (do_DELETE fs v).2.1 ≠ 404
    ∧ (do_DELETE fs v).1 = fs := by
  have hcond : do_DELETE fs v =
      (fs, 409, Json.obj [("error", Json.str "Cannot delete the active build")]) := by
    unfold do_DELETE
    rw [if_neg (by simp [h0]), if_pos (by simp [hact])]
  rw [hcond]
  exact ⟨rfl, (by decide : (409 : Nat) ≠ 404), rfl⟩

/-- C9 witness: a pointer naming a version with no build file still yields
the conflict outcome. -/
theorem c9_conflict_precedes_existence_witness :
    (do_DELETE { builds := [], activeFile := some "v9", featherBin := none } "v9").2.1 = 409
    ∧ (do_DELETE { builds := [], activeFile := some "v9", featherBin := none } "v9").2.1 ≠ 404
    ∧ (do_DELETE { builds := [], activeFile := some "v9", featherBin := none } "v9").1 =
        { builds := [], activeFile := some "v9", featherBin := none } :=
  c9_conflict_precedes_existence _ _ (by decide) (by decide) rfl

/-- C8: `get_health` maps every failure cause — transport error, timeout,
non-success HTTP status, unparseable body — to the one unreachable value
(`None`), and a parsed body is returned as is; being a total function, it
raises nothing to its caller. -/
theorem c8_get_health_collapses_failures :
    get_health .transportError = Json.null
    ∧ get_health .timeout = Json.null
    ∧ (∀ code, get_health (.badStatus code) = Json.null)
    ∧ get_health (.response none) = Json.null
    ∧ ∀ j, get_health (.response (some j)) = j :=
  ⟨rfl, rfl, fun _ => rfl, rfl, fun _ => rfl⟩

/-- C10: a health body parsing to the empty object is treated
inconsistently: the promotion poll loop never takes it (every attempt
returns `{}`, yet the result is the degraded message), while
`GET /status` on the same parsed body reports `healthy = true`. -/
theorem c10_falsy_body_inconsistency :
    (promote_version { builds := [⟨"v1", 1, 0⟩], activeFile := none, featherBin := none }
        "v1" (fun _ => .response (some (.obj [])))).2 =
      (true, "Restarted but health check not yet passing")
    ∧ (do_GET_status
        (promote_version { builds := [⟨"v1", 1, 0⟩], activeFile := none, featherBin := none }
          "v1" (fun _ => .response (some (.obj [])))).1
        (.obj [])).map StatusResp.healthy = some true :=
  ⟨rfl, rfl⟩

end Feather
